import Mathlib

/-!
Shallow embedding of `src/iot_data_testing.py`, a data-quality checker over a
fixed table of IoT sensor readings.

A pandas row becomes a `SensorReading`; the nullable numeric columns
`temperature` and `humidity` become `Option ℚ` (the `sensor_id` and
`timestamp` columns are plain strings and can never be null). Float
arithmetic is embedded as exact rational arithmetic. Each `test_*` function
of the Python file becomes a `Bool`-valued Lean function on the list of
readings; the printing the Python functions do has no bearing on their
return values and is dropped.
-/

namespace IotData

structure SensorReading where
  sensor_id : String
  temperature : Option ℚ
  humidity : Option ℚ
  timestamp : String
deriving DecidableEq, Repr

/-- The module-level `sensor_data` table (lines 12-19 of the source),
column-wise in Python, row-wise here. -/
def sensor_data : List SensorReading :=
  [ ⟨"S001", some 25.5, some 60, "2025-01-15 10:00"⟩,
    ⟨"S002", some 28.3, some 65, "2025-01-15 10:05"⟩,
    ⟨"S003", none, some 70, "2025-01-15 10:10"⟩,
    ⟨"S004", some 150.0, some 55, "2025-01-15 10:15"⟩,
    ⟨"S005", some 22.1, none, "2025-01-15 10:20"⟩,
    ⟨"S006", some (-50.0), some 80, "2025-01-15 10:25"⟩,
    ⟨"S007", some 30.2, some 62, "2025-01-15 10:30"⟩,
    ⟨"S008", some 26.8, some 68, "2025-01-15 10:35"⟩ ]

/-- `df.isnull().sum()` summed over all columns.  Only the `temperature` and
`humidity` columns are nullable; the string columns contribute zero. -/
def missingSum (df : List SensorReading) : ℕ :=
  df.countP (fun r => r.temperature.isNone) + df.countP (fun r => r.humidity.isNone)

/-- `test_missing_values` (source lines 32-46): fails iff the total null
count is positive. -/
def test_missing_values (df : List SensorReading) : Bool :=
  if missingSum df > 0 then false else true

/-- The rows selected by `df[(df['temperature'] < 0) | (df['temperature'] > 50)]`.
In pandas a comparison against a null (NaN) value is false, so rows with an
absent temperature are never selected. -/
def tempInvalid (df : List SensorReading) : List SensorReading :=
  df.filter (fun r =>
    match r.temperature with
    | some t => decide (t < 0) || decide (t > 50)
    | none => false)

/-- `test_temperature_range` (source lines 48-61). -/
def test_temperature_range (df : List SensorReading) : Bool :=
  if (tempInvalid df).length > 0 then false else true

/-- The rows selected by `df[(df['humidity'] < 0) | (df['humidity'] > 100)]`. -/
def humInvalid (df : List SensorReading) : List SensorReading :=
  df.filter (fun r =>
    match r.humidity with
    | some h => decide (h < 0) || decide (h > 100)
    | none => false)

/-- `test_humidity_range` (source lines 63-76). -/
def test_humidity_range (df : List SensorReading) : Bool :=
  if (humInvalid df).length > 0 then false else true

/-- The `sensor_id` column. -/
def sensorIds (df : List SensorReading) : List String :=
  df.map (fun r => r.sensor_id)

/-- The rows selected by `df[df.duplicated(subset=['sensor_id'], keep=False)]`:
with `keep=False`, pandas marks every row whose `sensor_id` occurs at least
twice in the column. -/
def duplicatedRows (df : List SensorReading) : List SensorReading :=
  df.filter (fun r => decide (2 ≤ (sensorIds df).count r.sensor_id))

/-- `test_duplicates` (source lines 78-90). -/
def test_duplicates (df : List SensorReading) : Bool :=
  if (duplicatedRows df).length > 0 then false else true

/-- `temp_clean = df['temperature'].dropna()` (source line 96). -/
def temp_clean (df : List SensorReading) : List ℚ :=
  df.filterMap (fun r => r.temperature)

/-- `np.mean` of a list (sum divided by length; `0` on the empty list, where
numpy would produce NaN — on the empty list no reading has a present
temperature, so the outlier test is unaffected). -/
def mean (xs : List ℚ) : ℚ :=
  xs.sum / xs.length

/-- The square of `np.std` of a list: the population variance, the mean of
the squared deviations from the mean. -/
def stdSq (xs : List ℚ) : ℚ :=
  ((xs.map (fun t => (t - mean xs) ^ 2)).sum) / xs.length

/-- The rows selected by `df[np.abs(df['temperature'] - mean) > (2 * std)]`
(source line 103).  Rows with an absent temperature propagate NaN through the
arithmetic and the comparison is false, so they are never selected.  Since
both sides of `|t - mean| > 2 * std` are nonnegative and `std = sqrt stdSq`,
the comparison is taken in the equivalent squared form
`(t - mean)^2 > 4 * stdSq`, which stays inside ℚ; the equivalence with the
square-root form is proved below (`outlier_flag_iff_sqrt`). -/
def outlierRows (df : List SensorReading) : List SensorReading :=
  df.filter (fun r =>
    match r.temperature with
    | some t => decide (4 * stdSq (temp_clean df) < (t - mean (temp_clean df)) ^ 2)
    | none => false)

/-- `test_outliers` (source lines 92-112). -/
def test_outliers (df : List SensorReading) : Bool :=
  if (outlierRows df).length > 0 then false else true

/-- `total_tests = len(results)` (source line 120). -/
def total_tests (results : List Bool) : ℕ :=
  results.length

/-- `passed = sum(results)` (source line 121): in Python, the number of
`True` entries. -/
def passed (results : List Bool) : ℕ :=
  results.countP (fun b => b)

/-- `failed = total_tests - passed` (source line 122). -/
def failed (results : List Bool) : ℕ :=
  total_tests results - passed results

/-- `success_rate = (passed / total_tests) * 100` (source line 123), as an
exact rational. -/
def success_rate (results : List Bool) : ℚ :=
  ((passed results : ℚ) / (total_tests results : ℚ)) * 100

/-- The quality label printed by the `if`-chain of `generate_report`
(source lines 132-137). -/
def quality (rate : ℚ) : String :=
  if rate ≥ 80 then "GOOD"
  else if rate ≥ 60 then "NEEDS IMPROVEMENT"
  else "POOR"

/-- Python's `/` raises `ZeroDivisionError` on a zero divisor; the division
in `generate_report` is unguarded, so the rate is only defined for a
non-empty results list. -/
def success_rateChecked (results : List Bool) : Option ℚ :=
  if total_tests results = 0 then none else some (success_rate results)

/-- The sequence of rule results built by `main` (source lines 147-152), in
execution order. -/
def runRules (df : List SensorReading) : List Bool :=
  [ test_missing_values df,
    test_temperature_range df,
    test_humidity_range df,
    test_duplicates df,
    test_outliers df ]

/-- `main` (source lines 141-155), with its one fallible step (the division
inside `generate_report`) made explicit: returns the rule results, the
success rate and the quality label, or `none` if the division would raise. -/
def mainChecked : Option (List Bool × ℚ × String) :=
  let results := runRules sensor_data
  match success_rateChecked results with
  | none => none
  | some rate => some (results, rate, quality rate)

/-- The state of `main`'s loop: the loaded table and the accumulated
results list. -/
structure ProgState where
  df : List SensorReading
  results : List Bool
deriving DecidableEq, Repr

/-- One iteration of `main`'s loop, `results.append(rule(df))`: the rule
reads the table and only the results list grows. -/
def applyRule (rule : List SensorReading → Bool) (s : ProgState) : ProgState :=
  { df := s.df, results := s.results ++ [rule s.df] }

/-- The five rules in the order `main` runs them. -/
def ruleSeq : List (List SensorReading → Bool) :=
  [ test_missing_values, test_temperature_range, test_humidity_range,
    test_duplicates, test_outliers ]

/-- Running the whole rule set from a given state. -/
def runAll (s : ProgState) : ProgState :=
  ruleSeq.foldl (fun s rule => applyRule rule s) s

/-! ### Helper lemmas -/

theorem ite_ft_eq_false {c : Prop} [Decidable c] :
    ((if c then false else true) = false) ↔ c := by
  split <;> simp_all

theorem bool_true_iff_not_false (b : Bool) : b = true ↔ ¬ b = false := by
  cases b <;> simp

theorem filter_length_pos {α : Type} (p : α → Bool) (l : List α) :
    0 < (l.filter p).length ↔ ∃ a ∈ l, p a = true := by
  rw [List.length_pos_iff_exists_mem]
  constructor
  · rintro ⟨a, ha⟩
    rw [List.mem_filter] at ha
    exact ⟨a, ha.1, ha.2⟩
  · rintro ⟨a, ha, hp⟩
    exact ⟨a, List.mem_filter.mpr ⟨ha, hp⟩⟩

/-- The false-iff characterisation of the missing-value rule. -/
theorem missing_false_iff (df : List SensorReading) :
    test_missing_values df = false ↔
      ∃ r ∈ df, r.temperature = none ∨ r.humidity = none := by
  rw [test_missing_values, ite_ft_eq_false, gt_iff_lt, missingSum, add_pos_iff,
    List.countP_pos_iff, List.countP_pos_iff]
  constructor
  · rintro (⟨r, hr, h⟩ | ⟨r, hr, h⟩)
    · exact ⟨r, hr, Or.inl (Option.isNone_iff_eq_none.mp h)⟩
    · exact ⟨r, hr, Or.inr (Option.isNone_iff_eq_none.mp h)⟩
  · rintro ⟨r, hr, h | h⟩
    · exact Or.inl ⟨r, hr, Option.isNone_iff_eq_none.mpr h⟩
    · exact Or.inr ⟨r, hr, Option.isNone_iff_eq_none.mpr h⟩

/-- The false-iff characterisation of the temperature-range rule. -/
theorem temp_range_false_iff (df : List SensorReading) :
    test_temperature_range df = false ↔
      ∃ r ∈ df, ∃ t : ℚ, r.temperature = some t ∧ (t < 0 ∨ 50 < t) := by
  rw [test_temperature_range, ite_ft_eq_false, gt_iff_lt, tempInvalid, filter_length_pos]
  constructor
  · rintro ⟨r, hr, hp⟩
    cases htemp : r.temperature with
    | none => rw [htemp] at hp; exact absurd hp (by simp)
    | some t =>
        rw [htemp] at hp
        simp only [Bool.or_eq_true, decide_eq_true_eq] at hp
        exact ⟨r, hr, t, htemp, hp⟩
  · rintro ⟨r, hr, t, htemp, h⟩
    refine ⟨r, hr, ?_⟩
    rw [htemp]
    simp only [Bool.or_eq_true, decide_eq_true_eq]
    exact h

/-- The false-iff characterisation of the humidity-range rule. -/
theorem hum_range_false_iff (df : List SensorReading) :
    test_humidity_range df = false ↔
      ∃ r ∈ df, ∃ q : ℚ, r.humidity = some q ∧ (q < 0 ∨ 100 < q) := by
  rw [test_humidity_range, ite_ft_eq_false, gt_iff_lt, humInvalid, filter_length_pos]
  constructor
  · rintro ⟨r, hr, hp⟩
    cases hhum : r.humidity with
    | none => rw [hhum] at hp; exact absurd hp (by simp)
    | some q =>
        rw [hhum] at hp
        simp only [Bool.or_eq_true, decide_eq_true_eq] at hp
        exact ⟨r, hr, q, hhum, hp⟩
  · rintro ⟨r, hr, q, hhum, h⟩
    refine ⟨r, hr, ?_⟩
    rw [hhum]
    simp only [Bool.or_eq_true, decide_eq_true_eq]
    exact h

/-- The true-iff characterisation of the temperature-range rule. -/
theorem temp_range_true_iff (df : List SensorReading) :
    test_temperature_range df = true ↔
      ∀ r ∈ df, ∀ t : ℚ, r.temperature = some t → 0 ≤ t ∧ t ≤ 50 := by
  rw [bool_true_iff_not_false, temp_range_false_iff]
  push_neg
  constructor
  · intro h r hr t ht
    have := h r hr t ht
    exact ⟨this.1, this.2⟩
  · intro h r hr t ht
    have := h r hr t ht
    exact ⟨this.1, this.2⟩

/-- The true-iff characterisation of the humidity-range rule. -/
theorem hum_range_true_iff (df : List SensorReading) :
    test_humidity_range df = true ↔
      ∀ r ∈ df, ∀ q : ℚ, r.humidity = some q → 0 ≤ q ∧ q ≤ 100 := by
  rw [bool_true_iff_not_false, hum_range_false_iff]
  push_neg
  constructor
  · intro h r hr q hq
    have := h r hr q hq
    exact ⟨this.1, this.2⟩
  · intro h r hr q hq
    have := h r hr q hq
    exact ⟨this.1, this.2⟩

/-- The false-iff characterisation of the duplicate rule. -/
theorem dup_false_iff (df : List SensorReading) :
    test_duplicates df = false ↔ ∃ s : String, 2 ≤ (sensorIds df).count s := by
  rw [test_duplicates, ite_ft_eq_false, gt_iff_lt, duplicatedRows, filter_length_pos]
  constructor
  · rintro ⟨r, _, hp⟩
    exact ⟨r.sensor_id, by simpa using hp⟩
  · rintro ⟨s, hs⟩
    have hmem : s ∈ sensorIds df :=
      List.count_pos_iff.mp (lt_of_lt_of_le (by norm_num) hs)
    obtain ⟨r, hr, rfl⟩ := List.mem_map.mp hmem
    exact ⟨r, hr, by simpa using hs⟩

/-- The true-iff characterisation of the duplicate rule. -/
theorem dup_true_iff (df : List SensorReading) :
    test_duplicates df = true ↔ (sensorIds df).Nodup := by
  rw [bool_true_iff_not_false, dup_false_iff, List.nodup_iff_count_le_one]
  push_neg
  constructor <;> intro h a <;> have := h a <;> omega

theorem stdSq_nonneg (xs : List ℚ) : 0 ≤ stdSq xs := by
  unfold stdSq
  apply div_nonneg
  · apply List.sum_nonneg
    intro x hx
    obtain ⟨t, _, rfl⟩ := List.mem_map.mp hx
    positivity
  · positivity

/-- For a nonnegative `v`, the squared comparison used in `outlierRows` is
equivalent to the square-root comparison written in the source:
`|d| > 2 * sqrt v` iff `d^2 > 4 * v`. -/
theorem sq_flag_iff (v d : ℚ) (hv : 0 ≤ v) :
    4 * v < d ^ 2 ↔ 2 * Real.sqrt (v : ℝ) < |(d : ℝ)| := by
  have hcast : 4 * v < d ^ 2 ↔ 4 * (v : ℝ) < (d : ℝ) ^ 2 := by
    rw [show (4 * (v : ℝ)) = (((4 * v : ℚ) : ℝ)) by push_cast; ring,
      show ((d : ℝ) ^ 2) = (((d ^ 2 : ℚ) : ℝ)) by push_cast; ring, Rat.cast_lt]
  rw [hcast]
  have hvR : (0 : ℝ) ≤ (v : ℝ) := by exact_mod_cast hv
  have h4 : Real.sqrt (4 : ℝ) = 2 := by
    rw [show (4 : ℝ) = 2 ^ 2 by norm_num, Real.sqrt_sq (by norm_num : (0:ℝ) ≤ 2)]
  have h2 : Real.sqrt (4 * (v : ℝ)) = 2 * Real.sqrt (v : ℝ) := by
    rw [Real.sqrt_mul (by norm_num : (0:ℝ) ≤ 4), h4]
  rcases eq_or_lt_of_le (abs_nonneg (d : ℝ)) with h0 | h0
  · have hd : (d : ℝ) = 0 := abs_eq_zero.mp h0.symm
    constructor
    · intro h
      exfalso
      rw [hd] at h
      nlinarith
    · intro h
      exfalso
      rw [← h0] at h
      have := Real.sqrt_nonneg (v : ℝ)
      nlinarith
  · rw [← h2, Real.sqrt_lt' h0, sq_abs]

/-- The false-iff characterisation of the outlier rule, at the rational
(squared) level. -/
theorem outliers_false_iff_sq (df : List SensorReading) :
    test_outliers df = false ↔
      ∃ r ∈ df, ∃ t : ℚ, r.temperature = some t ∧
        4 * stdSq (temp_clean df) < (t - mean (temp_clean df)) ^ 2 := by
  rw [test_outliers, ite_ft_eq_false, gt_iff_lt, outlierRows, filter_length_pos]
  constructor
  · rintro ⟨r, hr, hp⟩
    cases htemp : r.temperature with
    | none => rw [htemp] at hp; exact absurd hp (by simp)
    | some t =>
        rw [htemp] at hp
        simp only [decide_eq_true_eq] at hp
        exact ⟨r, hr, t, htemp, hp⟩
  · rintro ⟨r, hr, t, htemp, h⟩
    refine ⟨r, hr, ?_⟩
    rw [htemp]
    simp only [decide_eq_true_eq]
    exact h

/-- The flag predicate of `outlierRows`, restated with the source's
square root: a present temperature `t` is flagged iff it deviates from the
mean of the present temperatures by strictly more than twice their
population standard deviation. -/
theorem outlier_flag_iff_sqrt (df : List SensorReading) (t : ℚ) :
    4 * stdSq (temp_clean df) < (t - mean (temp_clean df)) ^ 2 ↔
      2 * Real.sqrt ((stdSq (temp_clean df) : ℚ) : ℝ) <
        |(t : ℝ) - ((mean (temp_clean df) : ℚ) : ℝ)| := by
  rw [sq_flag_iff _ _ (stdSq_nonneg (temp_clean df))]
  push_cast
  rfl

/-- C1: the outlier rule computes the mean and population standard deviation
over exactly the present temperatures; a reading is flagged iff its present
temperature deviates from that mean by strictly more than 2 standard
deviations (readings with an absent temperature are never flagged); the rule
returns false iff at least one reading is flagged, true otherwise. -/
theorem C1_outliers (df : List SensorReading) :
    (test_outliers df = false ↔
      ∃ r ∈ df, ∃ t : ℚ, r.temperature = some t ∧
        2 * Real.sqrt ((stdSq (temp_clean df) : ℚ) : ℝ) <
          |(t : ℝ) - ((mean (temp_clean df) : ℚ) : ℝ)|) ∧
    (test_outliers df = true ↔
      ∀ r ∈ df, ∀ t : ℚ, r.temperature = some t →
        |(t : ℝ) - ((mean (temp_clean df) : ℚ) : ℝ)| ≤
          2 * Real.sqrt ((stdSq (temp_clean df) : ℚ) : ℝ)) := by
  have hfalse : test_outliers df = false ↔
      ∃ r ∈ df, ∃ t : ℚ, r.temperature = some t ∧
        2 * Real.sqrt ((stdSq (temp_clean df) : ℚ) : ℝ) <
          |(t : ℝ) - ((mean (temp_clean df) : ℚ) : ℝ)| := by
    rw [outliers_false_iff_sq]
    constructor
    · rintro ⟨r, hr, t, htemp, h⟩
      exact ⟨r, hr, t, htemp, (outlier_flag_iff_sqrt df t).mp h⟩
    · rintro ⟨r, hr, t, htemp, h⟩
      exact ⟨r, hr, t, htemp, (outlier_flag_iff_sqrt df t).mpr h⟩
  refine ⟨hfalse, ?_⟩
  rw [bool_true_iff_not_false, hfalse]
  push_neg
  rfl

/-- C3: the missing-value rule returns false iff at least one reading has an
absent temperature or an absent humidity, and true otherwise. -/
theorem C3_missing_values (df : List SensorReading) :
    test_missing_values df = false ↔
      ∃ r ∈ df, r.temperature = none ∨ r.humidity = none :=
  missing_false_iff df

/-- C4: the temperature-range rule returns false iff some reading has a
present temperature below 0 or above 50; absent temperatures are skipped, so
the rule returns true whenever every present temperature lies in the closed
interval from 0 to 50. -/
theorem C4_temperature_range (df : List SensorReading) :
    (test_temperature_range df = false ↔
      ∃ r ∈ df, ∃ t : ℚ, r.temperature = some t ∧ (t < 0 ∨ 50 < t)) ∧
    (test_temperature_range df = true ↔
      ∀ r ∈ df, ∀ t : ℚ, r.temperature = some t → 0 ≤ t ∧ t ≤ 50) :=
  ⟨temp_range_false_iff df, temp_range_true_iff df⟩

/-- C5: the humidity-range rule returns false iff some reading has a present
humidity below 0 or above 100; absent humidities are skipped, so the rule
returns true whenever every present humidity lies in the closed interval
from 0 to 100. -/
theorem C5_humidity_range (df : List SensorReading) :
    (test_humidity_range df = false ↔
      ∃ r ∈ df, ∃ q : ℚ, r.humidity = some q ∧ (q < 0 ∨ 100 < q)) ∧
    (test_humidity_range df = true ↔
      ∀ r ∈ df, ∀ q : ℚ, r.humidity = some q → 0 ≤ q ∧ q ≤ 100) :=
  ⟨hum_range_false_iff df, hum_range_true_iff df⟩

/-- C6: the duplicate-identifier rule returns false iff some sensor
identifier occurs at least twice in the collection, and true iff the
identifiers are pairwise distinct. -/
theorem C6_duplicates (df : List SensorReading) :
    (test_duplicates df = false ↔ ∃ s : String, 2 ≤ (sensorIds df).count s) ∧
    (test_duplicates df = true ↔ (sensorIds df).Nodup) :=
  ⟨dup_false_iff df, dup_true_iff df⟩

/-! ### Aggregator lemmas -/

theorem passed_eq_count (results : List Bool) : passed results = results.count true := by
  induction results with
  | nil => rfl
  | cons b bs ih =>
      cases b <;> simp [passed, List.count_cons, List.countP_cons] at ih ⊢ <;> omega

theorem quality_good_iff (x : ℚ) : quality x = "GOOD" ↔ 80 ≤ x := by
  unfold quality
  split_ifs with h1 h2
  · exact ⟨fun _ => h1, fun _ => rfl⟩
  · exact ⟨fun hc => absurd hc (by decide), fun hge => absurd hge h1⟩
  · exact ⟨fun hc => absurd hc (by decide), fun hge => absurd hge h1⟩

theorem quality_ni_iff (x : ℚ) :
    quality x = "NEEDS IMPROVEMENT" ↔ 60 ≤ x ∧ x < 80 := by
  unfold quality
  split_ifs with h1 h2
  · exact ⟨fun hc => absurd hc (by decide), fun hx => absurd h1 (not_le.mpr hx.2)⟩
  · exact ⟨fun _ => ⟨h2, not_le.mp h1⟩, fun _ => rfl⟩
  · exact ⟨fun hc => absurd hc (by decide), fun hx => absurd hx.1 h2⟩

theorem quality_poor_iff (x : ℚ) : quality x = "POOR" ↔ x < 60 := by
  unfold quality
  split_ifs with h1 h2
  · exact ⟨fun hc => absurd hc (by decide),
      fun hx => absurd h1 (not_le.mpr (lt_of_lt_of_le hx (by norm_num)))⟩
  · exact ⟨fun hc => absurd hc (by decide), fun hx => absurd h2 (not_le.mpr hx)⟩
  · exact ⟨fun _ => not_le.mp h2, fun _ => rfl⟩

theorem rate_one_of_five : success_rate [false, false, false, true, false] = 20 := by
  norm_num [success_rate, passed, total_tests, List.countP_cons, List.countP_nil]

theorem rate_five_of_five : success_rate [true, true, true, true, true] = 100 := by
  norm_num [success_rate, passed, total_tests, List.countP_cons, List.countP_nil]

/-- C2: for every non-empty results sequence the aggregator computes total =
length, passed = number of true entries, failed = total − passed, success
rate = passed/total × 100, and classifies GOOD iff the rate is at least 80,
NEEDS IMPROVEMENT iff it is at least 60 and below 80, POOR iff it is below
60; one pass out of five yields rate 20 and POOR, five out of five yields
rate 100 and GOOD. -/
theorem C2_generate_report (results : List Bool) (h : results ≠ []) :
    total_tests results = results.length ∧
    passed results = results.count true ∧
    failed results = total_tests results - passed results ∧
    success_rate results = ((results.count true : ℚ) / (results.length : ℚ)) * 100 ∧
    (quality (success_rate results) = "GOOD" ↔ 80 ≤ success_rate results) ∧
    (quality (success_rate results) = "NEEDS IMPROVEMENT" ↔
      60 ≤ success_rate results ∧ success_rate results < 80) ∧
    (quality (success_rate results) = "POOR" ↔ success_rate results < 60) ∧
    success_rate [false, false, false, true, false] = 20 ∧
    quality (success_rate [false, false, false, true, false]) = "POOR" ∧
    success_rate [true, true, true, true, true] = 100 ∧
    quality (success_rate [true, true, true, true, true]) = "GOOD" := by
  refine ⟨rfl, passed_eq_count results, rfl, ?_,
    quality_good_iff _, quality_ni_iff _, quality_poor_iff _,
    rate_one_of_five, ?_, rate_five_of_five, ?_⟩
  · rw [success_rate, passed_eq_count results, total_tests]
  · rw [rate_one_of_five]
    exact (quality_poor_iff 20).mpr (by norm_num)
  · rw [rate_five_of_five]
    exact (quality_good_iff 100).mpr (by norm_num)

/-- Witness for C2 at the concrete input of one pass out of five rules. -/
theorem C2_generate_report_witness :
    (([false, false, false, true, false] : List Bool) ≠ []) ∧
    quality (success_rate [false, false, false, true, false]) = "POOR" :=
  ⟨by decide,
    (C2_generate_report [false, false, false, true, false] (by decide)).2.2.2.2.2.2.2.2.1⟩

/-! ### Evaluation on the fixed dataset -/

theorem temp_clean_data :
    temp_clean sensor_data = [25.5, 28.3, 150.0, 22.1, -50.0, 30.2, 26.8] := rfl

theorem mean_data : mean (temp_clean sensor_data) = 2329 / 70 := by
  rw [temp_clean_data]
  norm_num [mean]

theorem stdSq_data : stdSq (temp_clean sensor_data) = 728732 / 245 := by
  rw [temp_clean_data]
  norm_num [stdSq, mean]

theorem row4_mem :
    (⟨"S004", some 150.0, some 55, "2025-01-15 10:15"⟩ : SensorReading) ∈ sensor_data := by
  simp [sensor_data]

theorem tmv_data : test_missing_values sensor_data = false := by rfl

theorem ttr_data : test_temperature_range sensor_data = false :=
  (temp_range_false_iff _).mpr ⟨⟨"S004", some 150.0, some 55, "2025-01-15 10:15"⟩,
    row4_mem, 150.0, rfl, Or.inr (by norm_num)⟩

theorem thr_data : test_humidity_range sensor_data = true := by
  rw [hum_range_true_iff]
  intro r hr
  fin_cases hr <;> intro q hq <;> simp at hq <;> subst hq <;> norm_num

theorem tdup_data : test_duplicates sensor_data = true := by
  rw [dup_true_iff]
  decide

theorem tout_data : test_outliers sensor_data = false :=
  (outliers_false_iff_sq _).mpr ⟨⟨"S004", some 150.0, some 55, "2025-01-15 10:15"⟩,
    row4_mem, 150.0, rfl, by rw [stdSq_data, mean_data]; norm_num⟩

theorem outlierRows_data :
    outlierRows sensor_data = [⟨"S004", some 150.0, some 55, "2025-01-15 10:15"⟩] := by
  rw [outlierRows]
  simp only [stdSq_data, mean_data]
  norm_num [sensor_data, List.filter_cons]

theorem runRules_data : runRules sensor_data = [false, false, true, true, false] := by
  rw [runRules, tmv_data, ttr_data, thr_data, tdup_data, tout_data]

theorem rate_two_of_five : success_rate [false, false, true, true, false] = 40 := by
  norm_num [success_rate, passed, total_tests, List.countP_cons, List.countP_nil]

/-- C7: on the fixed dataset the five rules yield, in execution order,
[false, false, true, true, false]; the outlier rule flags exactly the S004
reading at temperature 150 (in particular S006 at −50 is not flagged), the
success rate is 40% and the quality classification is POOR. -/
theorem C7_fixed_dataset :
    runRules sensor_data = [false, false, true, true, false] ∧
    outlierRows sensor_data =
      [⟨"S004", some 150.0, some 55, "2025-01-15 10:15"⟩] ∧
    success_rate (runRules sensor_data) = 40 ∧
    quality (success_rate (runRules sensor_data)) = "POOR" := by
  refine ⟨runRules_data, outlierRows_data, ?_, ?_⟩
  · rw [runRules_data, rate_two_of_five]
  · rw [runRules_data, rate_two_of_five]
    exact (quality_poor_iff 40).mpr (by norm_num)

/-- C8: the aggregator's division has no guard, so its result is defined iff
the results sequence is non-empty; `main` always passes exactly 5 results,
so under `main`'s usage the division succeeds. -/
theorem C8_division_unguarded :
    (∀ results : List Bool, success_rateChecked results = none ↔ results = []) ∧
    (runRules sensor_data).length = 5 ∧
    success_rateChecked (runRules sensor_data) =
      some (success_rate (runRules sensor_data)) := by
  refine ⟨?_, rfl, ?_⟩
  · intro results
    rw [success_rateChecked]
    constructor
    · intro hnone
      by_cases hc : total_tests results = 0
      · exact List.length_eq_zero.mp hc
      · rw [if_neg hc] at hnone
        exact absurd hnone (by simp)
    · intro hnil
      subst hnil
      rfl
  · rw [success_rateChecked, if_neg (by decide)]

/-- C9: the program run completes normally (exit status 0) with the rule
outcomes as plain booleans: the embedded `main`, with its one fallible step
(the report division) made explicit, returns a value rather than `none`. -/
theorem C9_main_exits_normally :
    mainChecked = some ([false, false, true, true, false], 40, "POOR") := by
  have h1 : success_rateChecked (runRules sensor_data) = some 40 := by
    rw [runRules_data, success_rateChecked, if_neg (by decide), rate_two_of_five]
  simp only [mainChecked, h1]
  rw [runRules_data]
  norm_num [quality]

/-- C10: the rule set is deterministic and read-only: running the five rules
leaves the table unchanged, produces exactly the `runRules` booleans, and a
second run from the state left by the first produces the identical state. -/
theorem C10_deterministic_read_only (df : List SensorReading) :
    (runAll ⟨df, []⟩).df = df ∧
    (runAll ⟨df, []⟩).results = runRules df ∧
    runAll ⟨(runAll ⟨df, []⟩).df, []⟩ = runAll ⟨df, []⟩ :=
  ⟨rfl, rfl, rfl⟩

end IotData
